import Mathlib

/-
Shallow embedding of src/rabbitmq_transport.go (package servicebus).

The file wraps the streadway/amqp client library.  The library itself is
modelled abstractly by an environment `Env` that fixes the outcome of each
broker operation (a `none` error means the operation succeeds, mirroring a
nil Go error).  Go pointers (`*amqp.Connection`, `*amqp.Channel`) are
modelled as `Option` values, with `none` standing for a nil pointer; a
method call on a nil pointer yields `GoResult.panicNilDeref`, mirroring the
run-time nil-pointer panic inside the library method.  Side effects of each
call are recorded as a trace (`List Effect`): resource-acquiring effects
(`dial`, `openChannel`) are recorded only when the acquisition succeeds,
while protocol requests (declare, bind, publish, consume-open, close) are
recorded when attempted.  Log output is recorded as `logMsg` effects whose
text matches the Go format strings.
-/

namespace Servicebus

/-- Go errors, modelled by their message string. -/
abbrev Err := String

/-- A live connection object; the environment decides all behaviour, so the
object itself carries no data. -/
abbrev Conn := Unit

/-- A live channel object. -/
abbrev Chan := Unit

/-- The message envelope: the repository's `Message` carries a routing key
and an arbitrary payload (here a string). -/
structure Message where
  routingKey : String
  content : String
  deriving DecidableEq, Repr

/-- Mirrors the Go accessor `message.GetRoutingKey()`. -/
def Message.GetRoutingKey (m : Message) : String := m.routingKey

/-- The serializer collaborator, abstracted to its two mappings
(`Marshal` to JSON bytes and `Unmarshal` back); byte payloads are lists of
byte values. -/
structure JSONSerializer where
  marshal : Message → Except Err (List Nat)
  unmarshal : List Nat → Except Err Message

/-- Observable side effects of the wrapper, in order of occurrence. -/
inductive Effect where
  | dial (url : String)
  | openChannel
  | exchangeDeclare (name kind : String) (durable autoDelete internal noWait : Bool)
  | queueDeclare (name : String) (durable autoDelete exclusive noWait : Bool)
  | queueBind (queue key exchange : String) (noWait : Bool)
  | publish (exchange key : String) (mandatory immediate : Bool)
      (contentType : String) (body : List Nat)
  | consumeOpen (queue consumerTag : String) (autoAck exclusive noLocal noWait : Bool)
  | closeChannel
  | closeConnection
  | spawnGoroutine
  | logMsg (s : String)
  deriving DecidableEq, Repr

/-- Result of running a piece of Go code: either a normal value, or a
nil-pointer-dereference panic. -/
inductive GoResult (α : Type) where
  | ok (a : α)
  | panicNilDeref
  deriving DecidableEq, Repr

/-- The behaviour of the underlying amqp library and of JSON encoding,
fixed per operation: `none` is a nil error (success), `some e` an error. -/
structure Env where
  dialErr : String → Option Err
  channelErr : Option Err
  exchangeDeclareErr : Option Err
  queueDeclareErr : Option Err
  queueBindErr : Option Err
  publishErr : Option Err
  consumeErr : Option Err
  deliveries : List (List Nat)
  channelCloseErr : Option Err
  connectionCloseErr : Option Err
  serializer : JSONSerializer

/-- Library call `amqp.Dial(url)`: the `dial` effect is recorded only when
the connection is actually established. -/
def amqpDial (env : Env) (url : String) : Except Err Conn × List Effect :=
  match env.dialErr url with
  | some e => (.error e, [])
  | none => (.ok (), [.dial url])

/-- Library call `conn.Channel()` on a possibly nil connection pointer. -/
def connChannel (env : Env) : Option Conn → GoResult (Except Err Chan) × List Effect
  | none => (.panicNilDeref, [])
  | some _ =>
    match env.channelErr with
    | some e => (.ok (.error e), [])
    | none => (.ok (.ok ()), [.openChannel])

/-- Library call `conn.Close()` on a possibly nil connection pointer. -/
def connClose (env : Env) : Option Conn → GoResult (Option Err) × List Effect
  | none => (.panicNilDeref, [])
  | some _ => (.ok env.connectionCloseErr, [.closeConnection])

/-- Library call `ch.Close()` on a possibly nil channel pointer. -/
def chanClose (env : Env) : Option Chan → GoResult (Option Err) × List Effect
  | none => (.panicNilDeref, [])
  | some _ => (.ok env.channelCloseErr, [.closeChannel])

/-- Library call `ch.ExchangeDeclare(name, kind, durable, autoDelete,
internal, noWait, nil)`. -/
def chanExchangeDeclare (env : Env) (ch : Option Chan) (name kind : String)
    (durable autoDelete internal noWait : Bool) : GoResult (Option Err) × List Effect :=
  match ch with
  | none => (.panicNilDeref, [])
  | some _ =>
    (.ok env.exchangeDeclareErr, [.exchangeDeclare name kind durable autoDelete internal noWait])

/-- Library call `ch.QueueDeclare(name, durable, autoDelete, exclusive,
noWait, nil)`. -/
def chanQueueDeclare (env : Env) (ch : Option Chan) (name : String)
    (durable autoDelete exclusive noWait : Bool) : GoResult (Option Err) × List Effect :=
  match ch with
  | none => (.panicNilDeref, [])
  | some _ => (.ok env.queueDeclareErr, [.queueDeclare name durable autoDelete exclusive noWait])

/-- Library call `ch.QueueBind(queue, key, exchange, noWait, nil)`. -/
def chanQueueBind (env : Env) (ch : Option Chan) (queue key exchange : String)
    (noWait : Bool) : GoResult (Option Err) × List Effect :=
  match ch with
  | none => (.panicNilDeref, [])
  | some _ => (.ok env.queueBindErr, [.queueBind queue key exchange noWait])

/-- Library call `ch.Publish(exchange, key, mandatory, immediate, msg)`,
where `msg` carries a content type and a body. -/
def chanPublish (env : Env) (ch : Option Chan) (exchange key : String)
    (mandatory immediate : Bool) (contentType : String) (body : List Nat) :
    GoResult (Option Err) × List Effect :=
  match ch with
  | none => (.panicNilDeref, [])
  | some _ => (.ok env.publishErr, [.publish exchange key mandatory immediate contentType body])

/-- Library call `ch.Consume(queue, consumerTag, autoAck, exclusive,
noLocal, noWait, nil)`; on success the delivery stream is the list of
payloads the environment will deliver, in order. -/
def chanConsume (env : Env) (ch : Option Chan) (queue consumerTag : String)
    (autoAck exclusive noLocal noWait : Bool) :
    GoResult (Except Err (List (List Nat))) × List Effect :=
  match ch with
  | none => (.panicNilDeref, [])
  | some _ =>
    match env.consumeErr with
    | some e => (.ok (.error e), [.consumeOpen queue consumerTag autoAck exclusive noLocal noWait])
    | none =>
      (.ok (.ok env.deliveries), [.consumeOpen queue consumerTag autoAck exclusive noLocal noWait])

/-- The client struct, with the five fields of the Go `RabbitMQClient`.
The `Serializer` field holds the serializer value itself (in Go it is a
pointer to a fresh `JSONSerializer`, never nil once constructed). -/
structure RabbitMQClient where
  Connection : Option Conn
  Channel : Option Chan
  Exchange : String
  Queue : String
  Serializer : JSONSerializer

/-- Embeds `createExchange` (src/rabbitmq_transport.go lines 73-90):
declares the exchange, durable and of type direct, when the stored
exchange name is non-empty; otherwise does nothing and returns nil. -/
def createExchange (env : Env) (client : RabbitMQClient) : GoResult (Option Err) × List Effect :=
  if client.Exchange ≠ "" then
    match chanExchangeDeclare env client.Channel client.Exchange "direct" true false false false with
    | (.panicNilDeref, tr) => (.panicNilDeref, [.logMsg ("Creating exchange: " ++ client.Exchange)] ++ tr)
    | (.ok (some e), tr) =>
      (.ok (some e), [.logMsg ("Creating exchange: " ++ client.Exchange)] ++ tr
        ++ [.logMsg ("Failed to declare exchange: " ++ e)])
    | (.ok none, tr) => (.ok none, [.logMsg ("Creating exchange: " ++ client.Exchange)] ++ tr)
  else (.ok none, [])

/-- Embeds `createQueue` (lines 93-109): declares the queue, durable, when
the stored queue name is non-empty; otherwise does nothing and returns nil. -/
def createQueue (env : Env) (client : RabbitMQClient) : GoResult (Option Err) × List Effect :=
  if client.Queue ≠ "" then
    match chanQueueDeclare env client.Channel client.Queue true false false false with
    | (.panicNilDeref, tr) => (.panicNilDeref, [.logMsg ("Creating queue: " ++ client.Queue)] ++ tr)
    | (.ok (some e), tr) =>
      (.ok (some e), [.logMsg ("Creating queue: " ++ client.Queue)] ++ tr
        ++ [.logMsg ("Failed to declare queue: " ++ e)])
    | (.ok none, tr) => (.ok none, [.logMsg ("Creating queue: " ++ client.Queue)] ++ tr)
  else (.ok none, [])

/-- Embeds `closeChanelConnection` (lines 65-70): closes the channel and
then the connection, ignoring the errors either close returns. -/
def closeChanelConnection (env : Env) (client : RabbitMQClient) : GoResult Unit × List Effect :=
  match chanClose env client.Channel with
  | (.panicNilDeref, tr) =>
    (.panicNilDeref, [.logMsg "Closing RabbitMQ channel and connection..."] ++ tr)
  | (.ok _, tr) =>
    match connClose env client.Connection with
    | (.panicNilDeref, tr2) =>
      (.panicNilDeref, [.logMsg "Closing RabbitMQ channel and connection..."] ++ tr ++ tr2)
    | (.ok _, tr2) =>
      (.ok (), [.logMsg "Closing RabbitMQ channel and connection..."] ++ tr ++ tr2
        ++ [.logMsg "RabbitMQ channel and connection closed."])

/-- Embeds `NewRabbitMQClient` (lines 19-62): dial, open a channel (closing
the connection if that fails), build the client value, then create the
exchange and the queue, tearing channel and connection down if either
creation fails. -/
def NewRabbitMQClient (env : Env) (amqpURL exchange queue : String) :
    GoResult (Except Err RabbitMQClient) × List Effect :=
  match amqpDial env amqpURL with
  | (.error e, tr) =>
    (.ok (.error e), [.logMsg "Initializing RabbitMQ connection..."] ++ tr
      ++ [.logMsg ("Failed to connect to RabbitMQ: " ++ e)])
  | (.ok conn, tr) =>
    match connChannel env (some conn) with
    | (.panicNilDeref, tr2) =>
      (.panicNilDeref, [.logMsg "Initializing RabbitMQ connection..."] ++ tr
        ++ [.logMsg "Connection to RabbitMQ established successfully."] ++ tr2)
    | (.ok (.error e), tr2) =>
      (.ok (.error e), [.logMsg "Initializing RabbitMQ connection..."] ++ tr
        ++ [.logMsg "Connection to RabbitMQ established successfully."] ++ tr2
        ++ [.logMsg ("Failed to open a channel: " ++ e)] ++ (connClose env (some conn)).2)
    | (.ok (.ok ch), tr2) =>
      let client : RabbitMQClient :=
        { Connection := some conn, Channel := some ch, Exchange := exchange,
          Queue := queue, Serializer := env.serializer }
      match createExchange env client with
      | (.panicNilDeref, tr4) =>
        (.panicNilDeref, [.logMsg "Initializing RabbitMQ connection..."] ++ tr
          ++ [.logMsg "Connection to RabbitMQ established successfully."] ++ tr2
          ++ [.logMsg "Channel opened successfully."] ++ tr4)
      | (.ok (some e), tr4) =>
        (.ok (.error e), [.logMsg "Initializing RabbitMQ connection..."] ++ tr
          ++ [.logMsg "Connection to RabbitMQ established successfully."] ++ tr2
          ++ [.logMsg "Channel opened successfully."] ++ tr4
          ++ [.logMsg ("Failed to create exchange: " ++ e)]
          ++ (closeChanelConnection env client).2)
      | (.ok none, tr4) =>
        match createQueue env client with
        | (.panicNilDeref, tr6) =>
          (.panicNilDeref, [.logMsg "Initializing RabbitMQ connection..."] ++ tr
            ++ [.logMsg "Connection to RabbitMQ established successfully."] ++ tr2
            ++ [.logMsg "Channel opened successfully."] ++ tr4 ++ tr6)
        | (.ok (some e), tr6) =>
          (.ok (.error e), [.logMsg "Initializing RabbitMQ connection..."] ++ tr
            ++ [.logMsg "Connection to RabbitMQ established successfully."] ++ tr2
            ++ [.logMsg "Channel opened successfully."] ++ tr4 ++ tr6
            ++ [.logMsg ("Failed to create queue: " ++ e)]
            ++ (closeChanelConnection env client).2)
        | (.ok none, tr6) =>
          (.ok (.ok client), [.logMsg "Initializing RabbitMQ connection..."] ++ tr
            ++ [.logMsg "Connection to RabbitMQ established successfully."] ++ tr2
            ++ [.logMsg "Channel opened successfully."] ++ tr4 ++ tr6
            ++ [.logMsg "RabbitMQ setup completed successfully."])

/-- Embeds `BindQueueToExchange` (lines 112-124): binds the stored queue to
the stored exchange under the given routing key, with no precondition
checks.  The second component of the result is the client value after the
call (the Go method performs no field assignment). -/
def BindQueueToExchange (env : Env) (client : RabbitMQClient) (routingKey : String) :
    GoResult (Option Err) × RabbitMQClient × List Effect :=
  match chanQueueBind env client.Channel client.Queue routingKey client.Exchange false with
  | (.panicNilDeref, tr) =>
    (.panicNilDeref, client,
      [.logMsg ("Binding queue " ++ client.Queue ++ " to exchange " ++ client.Exchange
        ++ " with routing key " ++ routingKey)] ++ tr)
  | (.ok (some e), tr) =>
    (.ok (some e), client,
      [.logMsg ("Binding queue " ++ client.Queue ++ " to exchange " ++ client.Exchange
        ++ " with routing key " ++ routingKey)] ++ tr
      ++ [.logMsg ("Failed to bind queue to exchange: " ++ e)])
  | (.ok none, tr) =>
    (.ok none, client,
      [.logMsg ("Binding queue " ++ client.Queue ++ " to exchange " ++ client.Exchange
        ++ " with routing key " ++ routingKey)] ++ tr)

/-- Embeds `Send` (lines 127-164): error out on a nil connection or nil
channel, marshal the message, and publish the bytes to the stored exchange
under the routing key of the message, non-mandatory and non-immediate,
with content type application/json. -/
def Send (env : Env) (client : RabbitMQClient) (message : Message) :
    GoResult (Option Err) × RabbitMQClient × List Effect :=
  match client.Connection with
  | none =>
    (.ok (some "connection does not exist"), client,
      [.logMsg "Sending message...", .logMsg "Connection does not exist."])
  | some _ =>
    match client.Channel with
    | none =>
      (.ok (some "channel does not exist"), client,
        [.logMsg "Sending message...", .logMsg "Channel does not exist."])
    | some ch =>
      match client.Serializer.marshal message with
      | .error e =>
        (.ok (some e), client,
          [.logMsg "Sending message...", .logMsg ("Failed to serialize message: " ++ e)])
      | .ok body =>
        match chanPublish env (some ch) client.Exchange message.GetRoutingKey
            false false "application/json" body with
        | (.panicNilDeref, tr) => (.panicNilDeref, client, [.logMsg "Sending message..."] ++ tr)
        | (.ok (some e), tr) =>
          (.ok (some e), client,
            [.logMsg "Sending message..."] ++ tr ++ [.logMsg ("Failed to publish message: " ++ e)])
        | (.ok none, tr) =>
          (.ok none, client,
            [.logMsg "Sending message..."] ++ tr ++ [.logMsg "Message sent successfully."])

/-- Embeds the body of the goroutine spawned by `Consume` (lines 196-208):
for each delivered payload, unmarshal it; on failure log and skip the
payload, otherwise hand the message to the handler.  The first component is
the sequence of messages passed to the handler, in order; the loop has no
way to report an error to any caller. -/
def consumeLoop (s : JSONSerializer) : List (List Nat) → List Message × List Effect
  | [] => ([], [])
  | d :: rest =>
    match s.unmarshal d with
    | .error e =>
      ((consumeLoop s rest).1,
        [.logMsg "Received a message",
          .logMsg ("Failed to deserialize message: " ++ e)] ++ (consumeLoop s rest).2)
    | .ok msg =>
      (msg :: (consumeLoop s rest).1,
        [.logMsg "Received a message"] ++ (consumeLoop s rest).2)

/-- Embeds the synchronous part of `Consume` (lines 167-212): error out on
a nil connection or nil channel, open the delivery stream (auto-ack,
non-exclusive), spawn the goroutine whose behaviour is `consumeLoop`, and
return nil immediately.  The `spawnGoroutine` effect marks the spawn; the
effects of the spawned task itself happen asynchronously and are those of
`consumeLoop`.  The second component is the client value after the call. -/
def Consume (env : Env) (client : RabbitMQClient) :
    GoResult (Option Err) × RabbitMQClient × List Effect :=
  match client.Connection with
  | none =>
    (.ok (some "connection does not exist"), client,
      [.logMsg "Starting to consume messages...", .logMsg "Connection does not exist."])
  | some _ =>
    match client.Channel with
    | none =>
      (.ok (some "channel does not exist"), client,
        [.logMsg "Starting to consume messages...", .logMsg "Channel does not exist."])
    | some ch =>
      match chanConsume env (some ch) client.Queue "" true false false false with
      | (.panicNilDeref, tr) =>
        (.panicNilDeref, client, [.logMsg "Starting to consume messages..."] ++ tr)
      | (.ok (.error e), tr) =>
        (.ok (some e), client,
          [.logMsg "Starting to consume messages..."] ++ tr
          ++ [.logMsg ("Failed to start consuming messages: " ++ e)])
      | (.ok (.ok _msgs), tr) =>
        (.ok none, client,
          [.logMsg "Starting to consume messages..."] ++ tr
          ++ [.spawnGoroutine, .logMsg "Consumer started successfully."])

/-- Embeds `Close` (lines 215-230): close the channel; if that errors,
return the error at once; otherwise close the connection and return its
error, if any.  No nil checks are performed.  The second component is the
client value after the call. -/
def Close (env : Env) (client : RabbitMQClient) :
    GoResult (Option Err) × RabbitMQClient × List Effect :=
  match chanClose env client.Channel with
  | (.panicNilDeref, tr) =>
    (.panicNilDeref, client, [.logMsg "Closing RabbitMQ connection..."] ++ tr)
  | (.ok (some e), tr) =>
    (.ok (some e), client,
      [.logMsg "Closing RabbitMQ connection..."] ++ tr
      ++ [.logMsg ("Failed to close channel: " ++ e)])
  | (.ok none, tr) =>
    match connClose env client.Connection with
    | (.panicNilDeref, tr2) =>
      (.panicNilDeref, client, [.logMsg "Closing RabbitMQ connection..."] ++ tr ++ tr2)
    | (.ok (some e), tr2) =>
      (.ok (some e), client,
        [.logMsg "Closing RabbitMQ connection..."] ++ tr ++ tr2
        ++ [.logMsg ("Failed to close connection: " ++ e)])
    | (.ok none, tr2) =>
      (.ok none, client,
        [.logMsg "Closing RabbitMQ connection..."] ++ tr ++ tr2
        ++ [.logMsg "RabbitMQ connection closed successfully."])

/-- Recognizes the successful-dial effect. -/
def isDial : Effect → Bool
  | .dial _ => true
  | _ => false

/-- Recognizes the successful channel-open effect. -/
def isOpenChannel : Effect → Bool
  | .openChannel => true
  | _ => false

/-- Recognizes a channel-close attempt. -/
def isCloseChannel : Effect → Bool
  | .closeChannel => true
  | _ => false

/-- Recognizes a connection-close attempt. -/
def isCloseConnection : Effect → Bool
  | .closeConnection => true
  | _ => false

/-- Recognizes an exchange-declare request. -/
def isExchangeDeclare : Effect → Bool
  | .exchangeDeclare _ _ _ _ _ _ => true
  | _ => false

/-- Recognizes a queue-declare request. -/
def isQueueDeclare : Effect → Bool
  | .queueDeclare _ _ _ _ _ => true
  | _ => false

/-- Recognizes a queue-bind request. -/
def isQueueBind : Effect → Bool
  | .queueBind _ _ _ _ => true
  | _ => false

/-- Recognizes a publish request. -/
def isPublish : Effect → Bool
  | .publish _ _ _ _ _ _ => true
  | _ => false

/-- Recognizes the goroutine-spawn marker. -/
def isSpawn : Effect → Bool
  | .spawnGoroutine => true
  | _ => false

/-- Recognizes a constructor result that carries a client. -/
def isOkClient : GoResult (Except Err RabbitMQClient) → Bool
  | .ok (.ok _) => true
  | _ => false

/-- A concrete serializer for witnesses: a message with content bad fails
to marshal, anything else marshals to the bytes [7, 7]; the payload [0]
unmarshals to a fixed message, anything else fails. -/
def exampleSerializer : JSONSerializer where
  marshal := fun m => if m.content = "bad" then .error "marshal failed" else .ok [7, 7]
  unmarshal := fun d => if d = [0] then .ok ⟨"rk", "decoded"⟩ else .error "bad json"

/-- An environment where every broker operation succeeds and two payloads
are delivered, of which only the first unmarshals. -/
def okEnv : Env where
  dialErr := fun _ => none
  channelErr := none
  exchangeDeclareErr := none
  queueDeclareErr := none
  queueBindErr := none
  publishErr := none
  consumeErr := none
  deliveries := [[0], [1]]
  channelCloseErr := none
  connectionCloseErr := none
  serializer := exampleSerializer

/-- A fully constructed client, as the constructor would build it on
success with exchange name ex and queue name qu. -/
def liveClient : RabbitMQClient where
  Connection := some ()
  Channel := some ()
  Exchange := "ex"
  Queue := "qu"
  Serializer := exampleSerializer

/-- A client value whose channel pointer is nil. -/
def nilChannelClient : RabbitMQClient := { liveClient with Channel := none }

/-- A client value whose connection pointer is nil but whose channel is
live. -/
def nilConnectionClient : RabbitMQClient := { liveClient with Connection := none }

/-- An environment in which closing the channel fails. -/
def chanCloseFailEnv : Env := { okEnv with channelCloseErr := some "channel close failed" }

/-- A message that marshals successfully under the example serializer. -/
def goodMessage : Message := ⟨"rk", "payload"⟩

/-- A message whose marshalling fails under the example serializer. -/
def badMessage : Message := ⟨"rk", "bad"⟩

/-- C8: none of BindQueueToExchange, Send, Consume and Close mutates any
field of the client: the client value after each call is the value before
it, whatever the environment, message and routing key. -/
theorem client_fields_not_mutated (env : Env) (client : RabbitMQClient)
    (m : Message) (key : String) :
    (Send env client m).2.1 = client ∧
    (Consume env client).2.1 = client ∧
    (Close env client).2.1 = client ∧
    (BindQueueToExchange env client key).2.1 = client := by
  refine ⟨?_, ?_, ?_, ?_⟩
  · cases hco : client.Connection with
    | none => simp [Send, hco]
    | some c =>
      cases hch : client.Channel with
      | none => simp [Send, hco, hch]
      | some ch =>
        cases hm : client.Serializer.marshal m with
        | error e => simp [Send, hco, hch, hm]
        | ok body =>
          cases hp : env.publishErr <;> simp [Send, chanPublish, hco, hch, hm, hp]
  · cases hco : client.Connection with
    | none => simp [Consume, hco]
    | some c =>
      cases hch : client.Channel with
      | none => simp [Consume, hco, hch]
      | some ch =>
        cases he : env.consumeErr <;> simp [Consume, chanConsume, hco, hch, he]
  · cases hch : client.Channel with
    | none => simp [Close, chanClose, hch]
    | some ch =>
      cases he : env.channelCloseErr with
      | some e => simp [Close, chanClose, hch, he]
      | none =>
        cases hco : client.Connection with
        | none => simp [Close, chanClose, connClose, hch, he, hco]
        | some c =>
          cases hce : env.connectionCloseErr <;>
            simp [Close, chanClose, connClose, hch, he, hco, hce]
  · cases hch : client.Channel with
    | none => simp [BindQueueToExchange, chanQueueBind, hch]
    | some ch =>
      cases hb : env.queueBindErr <;> simp [BindQueueToExchange, chanQueueBind, hch, hb]

/-- C5: Send on a client whose connection or channel pointer is nil
returns the matching precondition error, performs no publish, and neither
its result nor its effect trace depends on the serializer, so no
serialization is performed. -/
theorem send_nil_fields_errors (env : Env) (client : RabbitMQClient) (m : Message)
    (h : client.Connection = none ∨ client.Channel = none) :
    ((Send env client m).1 = .ok (some "connection does not exist") ∨
      (Send env client m).1 = .ok (some "channel does not exist")) ∧
    ((Send env client m).2.2).countP isPublish = 0 ∧
    (∀ s : JSONSerializer,
      (Send env { client with Serializer := s } m).1 = (Send env client m).1 ∧
      (Send env { client with Serializer := s } m).2.2 = (Send env client m).2.2) := by
  rcases h with h | h
  · refine ⟨Or.inl ?_, ?_, fun s => ⟨?_, ?_⟩⟩ <;>
      simp [Send, h, List.countP_cons, List.countP_nil, isPublish]
  · cases hco : client.Connection with
    | none =>
      refine ⟨Or.inl ?_, ?_, fun s => ⟨?_, ?_⟩⟩ <;>
        simp [Send, hco, List.countP_cons, List.countP_nil, isPublish]
    | some c =>
      refine ⟨Or.inr ?_, ?_, fun s => ⟨?_, ?_⟩⟩ <;>
        simp [Send, hco, h, List.countP_cons, List.countP_nil, isPublish]

/-- Witness for C5 at a concrete client with a nil channel. -/
theorem send_nil_fields_errors_witness :
    ((Send okEnv nilChannelClient goodMessage).1 = .ok (some "connection does not exist") ∨
      (Send okEnv nilChannelClient goodMessage).1 = .ok (some "channel does not exist")) ∧
    ((Send okEnv nilChannelClient goodMessage).2.2).countP isPublish = 0 ∧
    (∀ s : JSONSerializer,
      (Send okEnv { nilChannelClient with Serializer := s } goodMessage).1
        = (Send okEnv nilChannelClient goodMessage).1 ∧
      (Send okEnv { nilChannelClient with Serializer := s } goodMessage).2.2
        = (Send okEnv nilChannelClient goodMessage).2.2) :=
  send_nil_fields_errors okEnv nilChannelClient goodMessage (Or.inr rfl)

/-- C4: Send on a live client publishes exactly once, to the stored
exchange, under the routing key of the message, non-mandatory and
non-immediate, with content type application/json and a body equal to the
marshalled message, and returns the publish outcome; when marshalling
fails, the marshal error is returned and nothing is published. -/
theorem send_publish_format (env : Env) (client : RabbitMQClient) (m : Message)
    (hco : client.Connection = some ()) (hch : client.Channel = some ()) :
    (∀ body, client.Serializer.marshal m = .ok body →
      (Send env client m).1 = .ok env.publishErr ∧
      ((Send env client m).2.2).countP isPublish = 1 ∧
      Effect.publish client.Exchange m.GetRoutingKey false false "application/json" body
        ∈ (Send env client m).2.2) ∧
    (∀ e, client.Serializer.marshal m = .error e →
      (Send env client m).1 = .ok (some e) ∧
      ((Send env client m).2.2).countP isPublish = 0) := by
  constructor
  · intro body hb
    cases hp : env.publishErr <;>
      simp [Send, chanPublish, hco, hch, hb, hp,
        List.countP_append, List.countP_cons, List.countP_nil, isPublish]
  · intro e he
    simp [Send, hco, hch, he, List.countP_cons, List.countP_nil, isPublish]

/-- Witness for C4 at the live client, with a message that marshals to
[7, 7] and one whose marshalling fails. -/
theorem send_publish_format_witness :
    ((Send okEnv liveClient goodMessage).1 = .ok none ∧
      Effect.publish "ex" "rk" false false "application/json" [7, 7]
        ∈ (Send okEnv liveClient goodMessage).2.2) ∧
    ((Send okEnv liveClient badMessage).1 = .ok (some "marshal failed") ∧
      ((Send okEnv liveClient badMessage).2.2).countP isPublish = 0) := by
  have h1 := (send_publish_format okEnv liveClient goodMessage rfl rfl).1 [7, 7] rfl
  have h2 := (send_publish_format okEnv liveClient badMessage rfl rfl).2 "marshal failed" rfl
  exact ⟨⟨h1.1, h1.2.2⟩, h2⟩

/-- C2 counterexample: with a live client in an environment where the
channel close fails, Close returns that failure without ever attempting
the connection close, refuting the claim that the connection close is
still attempted. -/
theorem close_skips_connection_close_cex :
    (Close chanCloseFailEnv liveClient).1 = .ok (some "channel close failed") ∧
    ((Close chanCloseFailEnv liveClient).2.2).countP isCloseConnection = 0 := by
  decide

/-- C2 amended: Close closes the channel first; if the channel close
fails, that error is returned at once and the connection close is not
attempted; if the channel close succeeds, the connection close is
attempted and its outcome is returned. -/
theorem close_channel_then_connection (env : Env) (client : RabbitMQClient)
    (hch : client.Channel = some ()) (hco : client.Connection = some ()) :
    (∀ e, env.channelCloseErr = some e →
      (Close env client).1 = .ok (some e) ∧
      ((Close env client).2.2).countP isCloseChannel = 1 ∧
      ((Close env client).2.2).countP isCloseConnection = 0) ∧
    (env.channelCloseErr = none →
      (Close env client).1 = .ok env.connectionCloseErr ∧
      ((Close env client).2.2).countP isCloseChannel = 1 ∧
      ((Close env client).2.2).countP isCloseConnection = 1) := by
  constructor
  · intro e he
    simp [Close, chanClose, hch, he,
      List.countP_append, List.countP_cons, List.countP_nil,
      isCloseChannel, isCloseConnection]
  · intro he
    cases hce : env.connectionCloseErr <;>
      simp [Close, chanClose, connClose, hch, hco, he, hce,
        List.countP_append, List.countP_cons, List.countP_nil,
        isCloseChannel, isCloseConnection]

/-- Witness for the amended C2: in the all-success environment both closes
are attempted, and in the channel-close-failure environment the connection
close is skipped. -/
theorem close_channel_then_connection_witness :
    ((Close okEnv liveClient).1 = .ok none ∧
      ((Close okEnv liveClient).2.2).countP isCloseChannel = 1 ∧
      ((Close okEnv liveClient).2.2).countP isCloseConnection = 1) ∧
    ((Close chanCloseFailEnv liveClient).2.2).countP isCloseConnection = 0 := by
  have h1 := (close_channel_then_connection okEnv liveClient rfl rfl).2 rfl
  have h2 := (close_channel_then_connection chanCloseFailEnv liveClient rfl rfl).1
    "channel close failed" rfl
  exact ⟨h1, h2.2.2⟩

/-- C9 counterexample: a client with a nil connection but a live channel,
in an environment where the channel close fails, makes Close return that
error rather than dereference the nil connection pointer, so a nil field
does not always lead to a nil dereference. -/
theorem close_nil_connection_no_deref_cex :
    nilConnectionClient.Connection = none ∧
    (Close chanCloseFailEnv nilConnectionClient).1 ≠ .panicNilDeref ∧
    (Close chanCloseFailEnv nilConnectionClient).1 ≠ .ok (some "connection does not exist") ∧
    (Close chanCloseFailEnv nilConnectionClient).1 ≠ .ok (some "channel does not exist") := by
  decide

/-- C9 amended: Close performs no nil checks: with a nil channel it
dereferences the nil pointer; with a nil connection it dereferences the
nil pointer whenever the channel close succeeds (otherwise it returns the
channel-close error); and any error it returns comes from one of the two
close calls, never a missing-connection or missing-channel precondition
error of its own. -/
theorem close_no_nil_checks (env : Env) (client : RabbitMQClient) :
    (client.Channel = none → (Close env client).1 = .panicNilDeref) ∧
    (client.Connection = none → client.Channel = some () → env.channelCloseErr = none →
      (Close env client).1 = .panicNilDeref) ∧
    (∀ e, (Close env client).1 = .ok (some e) →
      env.channelCloseErr = some e ∨ env.connectionCloseErr = some e) := by
  refine ⟨?_, ?_, ?_⟩
  · intro hch
    simp [Close, chanClose, hch]
  · intro hco hch he
    simp [Close, chanClose, connClose, hch, hco, he]
  · intro e
    cases hch : client.Channel with
    | none => simp [Close, chanClose, hch]
    | some ch =>
      cases he : env.channelCloseErr with
      | some e2 =>
        simp [Close, chanClose, hch, he]
        try exact fun h => Or.inl h
      | none =>
        cases hco : client.Connection with
        | none => simp [Close, chanClose, connClose, hch, he, hco]
        | some c =>
          cases hce : env.connectionCloseErr with
          | some e2 =>
            simp [Close, chanClose, connClose, hch, he, hco, hce]
            try exact fun h => Or.inr h
          | none => simp [Close, chanClose, connClose, hch, he, hco, hce]

/-- Witness for the amended C9: with a nil channel, Close panics. -/
theorem close_no_nil_checks_witness :
    (Close okEnv nilChannelClient).1 = .panicNilDeref :=
  (close_no_nil_checks okEnv nilChannelClient).1 rfl

/-- C10: BindQueueToExchange checks no preconditions: with a nil channel
it dereferences the nil pointer; with a live channel it immediately issues
the QueueBind request for the stored queue and exchange under the given
key and returns the bind outcome; and its result never depends on the
Connection field, so no missing-connection check is ever made. -/
theorem bind_no_precondition_checks (env : Env) (client : RabbitMQClient) (key : String) :
    (client.Channel = none → (BindQueueToExchange env client key).1 = .panicNilDeref) ∧
    (client.Channel = some () →
      (BindQueueToExchange env client key).1 = .ok env.queueBindErr ∧
      Effect.queueBind client.Queue key client.Exchange false
        ∈ (BindQueueToExchange env client key).2.2) ∧
    (∀ co, (BindQueueToExchange env { client with Connection := co } key).1
        = (BindQueueToExchange env client key).1) := by
  refine ⟨?_, ?_, ?_⟩
  · intro hch
    simp [BindQueueToExchange, chanQueueBind, hch]
  · intro hch
    cases hb : env.queueBindErr <;>
      simp [BindQueueToExchange, chanQueueBind, hch, hb]
  · intro co
    cases hch : client.Channel with
    | none => simp [BindQueueToExchange, chanQueueBind, hch]
    | some ch =>
      cases hb : env.queueBindErr <;>
        simp [BindQueueToExchange, chanQueueBind, hch, hb]

/-- Witness for C10: a nil channel makes the bind panic, and on the live
client the bind request is issued and succeeds. -/
theorem bind_no_precondition_checks_witness :
    (BindQueueToExchange okEnv nilChannelClient "key1").1 = .panicNilDeref ∧
    (BindQueueToExchange okEnv liveClient "key1").1 = .ok none ∧
    Effect.queueBind "qu" "key1" "ex" false ∈ (BindQueueToExchange okEnv liveClient "key1").2.2 := by
  have h1 := (bind_no_precondition_checks okEnv nilChannelClient "key1").1 rfl
  have h2 := (bind_no_precondition_checks okEnv liveClient "key1").2.1 rfl
  exact ⟨h1, h2.1, h2.2⟩

/-- C3: the background task of Consume hands the handler exactly the
successfully-unmarshalled payloads, one invocation per payload, in
delivery order, and logs a deserialization-failure message for every
payload that fails to unmarshal; the loop has no error channel, so no
failure is propagated to any caller. -/
theorem consume_loop_handler_calls (s : JSONSerializer) (ds : List (List Nat)) :
    (consumeLoop s ds).1 = ds.filterMap (fun d =>
      match s.unmarshal d with
      | .ok m => some m
      | .error _ => none) ∧
    (∀ d, d ∈ ds → ∀ e, s.unmarshal d = .error e →
      Effect.logMsg ("Failed to deserialize message: " ++ e) ∈ (consumeLoop s ds).2) := by
  induction ds with
  | nil => simp [consumeLoop]
  | cons d rest ih =>
    constructor
    · cases hu : s.unmarshal d with
      | error e => simp [consumeLoop, hu, ih.1]
      | ok m => simp [consumeLoop, hu, ih.1]
    · intro d2 hd2 e2 he2
      rcases List.mem_cons.mp hd2 with hd2 | hd2
      · subst hd2
        cases hu : s.unmarshal d2 with
        | error e =>
          rw [he2] at hu
          cases hu
          simp [consumeLoop, he2]
        | ok m => rw [he2] at hu; cases hu
      · cases hu : s.unmarshal d with
        | error e => simp [consumeLoop, hu]; exact Or.inr (Or.inr (ih.2 d2 hd2 e2 he2))
        | ok m => simp [consumeLoop, hu]; exact Or.inr (ih.2 d2 hd2 e2 he2)

/-- Witness for C3 on the example serializer and the two delivered
payloads of the example environment: only the first payload reaches the
handler, and the failure of the second is logged. -/
theorem consume_loop_handler_calls_witness :
    (consumeLoop exampleSerializer [[0], [1]]).1 = [⟨"rk", "decoded"⟩] ∧
    Effect.logMsg "Failed to deserialize message: bad json"
      ∈ (consumeLoop exampleSerializer [[0], [1]]).2 := by
  have h := consume_loop_handler_calls exampleSerializer [[0], [1]]
  refine ⟨?_, h.2 [1] (by decide) "bad json" rfl⟩
  rw [h.1]
  rfl

/-- C6: the exchange is declared, durable and of type direct, exactly when
the exchange name is non-empty, and the queue is declared, durable,
exactly when the queue name is non-empty; a construction with an empty
queue name and a non-empty exchange name whose declaration succeeds
returns a client while issuing no queue declaration. -/
theorem declare_iff_nonempty_names (env : Env) (client : RabbitMQClient)
    (hch : client.Channel = some ()) :
    (client.Exchange = "" → createExchange env client = (.ok none, [])) ∧
    (client.Exchange ≠ "" →
      ((createExchange env client).2).countP isExchangeDeclare = 1 ∧
      Effect.exchangeDeclare client.Exchange "direct" true false false false
        ∈ (createExchange env client).2) ∧
    (client.Queue = "" → createQueue env client = (.ok none, [])) ∧
    (client.Queue ≠ "" →
      ((createQueue env client).2).countP isQueueDeclare = 1 ∧
      Effect.queueDeclare client.Queue true false false false ∈ (createQueue env client).2) ∧
    (∀ url ex q, q = "" → ex ≠ "" → env.dialErr url = none → env.channelErr = none →
      env.exchangeDeclareErr = none →
      isOkClient (NewRabbitMQClient env url ex q).1 = true ∧
      ((NewRabbitMQClient env url ex q).2).countP isQueueDeclare = 0) := by
  refine ⟨?_, ?_, ?_, ?_, ?_⟩
  · intro hex
    simp [createExchange, hex]
  · intro hex
    cases he : env.exchangeDeclareErr <;>
      simp [createExchange, chanExchangeDeclare, hch, hex, he,
        List.countP_append, List.countP_cons, List.countP_nil, isExchangeDeclare]
  · intro hq
    simp [createQueue, hq]
  · intro hq
    cases he : env.queueDeclareErr <;>
      simp [createQueue, chanQueueDeclare, hch, hq, he,
        List.countP_append, List.countP_cons, List.countP_nil, isQueueDeclare]
  · intro url ex q hq hex hd hc he
    subst hq
    simp [NewRabbitMQClient, amqpDial, connChannel, createExchange, createQueue,
      chanExchangeDeclare, isOkClient, hd, hc, he, hex,
      List.countP_append, List.countP_cons, List.countP_nil, isQueueDeclare]

/-- Witness for C6 at the live client (non-empty names) and at the
constructor run with an empty queue name in the all-success environment. -/
theorem declare_iff_nonempty_names_witness :
    Effect.exchangeDeclare "ex" "direct" true false false false
      ∈ (createExchange okEnv liveClient).2 ∧
    Effect.queueDeclare "qu" true false false false ∈ (createQueue okEnv liveClient).2 ∧
    isOkClient (NewRabbitMQClient okEnv "amqp://h" "ex" "").1 = true ∧
    ((NewRabbitMQClient okEnv "amqp://h" "ex" "").2).countP isQueueDeclare = 0 := by
  have h := declare_iff_nonempty_names okEnv liveClient rfl
  have h5 := h.2.2.2.2 "amqp://h" "ex" "" rfl (by decide) rfl rfl rfl
  exact ⟨(h.2.1 (by decide)).2, (h.2.2.2.1 (by decide)).2, h5.1, h5.2⟩

/-- C7: Consume rejects a nil connection or nil channel with the matching
error and spawns nothing; when opening the delivery stream fails it
returns that error and spawns nothing; otherwise it issues exactly one
auto-acknowledged, non-exclusive consume request on the stored queue,
spawns exactly one background task and returns nil at once, its trace
ending at the spawn rather than at the end of consumption. -/
theorem consume_guards_and_spawn (env : Env) (client : RabbitMQClient) :
    (client.Connection = none →
      (Consume env client).1 = .ok (some "connection does not exist") ∧
      ((Consume env client).2.2).countP isSpawn = 0) ∧
    (client.Connection = some () → client.Channel = none →
      (Consume env client).1 = .ok (some "channel does not exist") ∧
      ((Consume env client).2.2).countP isSpawn = 0) ∧
    (∀ e, client.Connection = some () → client.Channel = some () →
      env.consumeErr = some e →
      (Consume env client).1 = .ok (some e) ∧
      ((Consume env client).2.2).countP isSpawn = 0) ∧
    (client.Connection = some () → client.Channel = some () → env.consumeErr = none →
      (Consume env client).1 = .ok none ∧
      (Consume env client).2.2 =
        [.logMsg "Starting to consume messages...",
         .consumeOpen client.Queue "" true false false false,
         .spawnGoroutine, .logMsg "Consumer started successfully."]) := by
  refine ⟨?_, ?_, ?_, ?_⟩
  · intro hco
    simp [Consume, hco, List.countP_cons, List.countP_nil, isSpawn]
  · intro hco hch
    simp [Consume, hco, hch, List.countP_cons, List.countP_nil, isSpawn]
  · intro e hco hch he
    simp [Consume, chanConsume, hco, hch, he,
      List.countP_append, List.countP_cons, List.countP_nil, isSpawn]
  · intro hco hch he
    simp [Consume, chanConsume, hco, hch, he]

/-- Witness for C7: on the live client in the all-success environment the
stream is established on queue qu and exactly the establishment trace is
produced; on a nil-channel client the guard error comes back with no
spawn. -/
theorem consume_guards_and_spawn_witness :
    ((Consume okEnv liveClient).1 = .ok none ∧
      (Consume okEnv liveClient).2.2 =
        [.logMsg "Starting to consume messages...",
         .consumeOpen "qu" "" true false false false,
         .spawnGoroutine, .logMsg "Consumer started successfully."]) ∧
    ((Consume okEnv nilChannelClient).1 = .ok (some "channel does not exist") ∧
      ((Consume okEnv nilChannelClient).2.2).countP isSpawn = 0) := by
  have h1 := (consume_guards_and_spawn okEnv liveClient).2.2.2 rfl rfl rfl
  have h2 := (consume_guards_and_spawn okEnv nilChannelClient).2.1 rfl rfl
  exact ⟨h1, h2⟩

/-- C1 counterexample: in the all-success environment the constructor
returns a client yet its trace contains no queue-bind request, refuting
the part of the claim that a returned client has the queue bound to the
exchange; binding is only ever done by the separate BindQueueToExchange
call. -/
theorem new_client_no_bind_cex :
    isOkClient (NewRabbitMQClient okEnv "amqp://h" "ex" "qu").1 = true ∧
    ((NewRabbitMQClient okEnv "amqp://h" "ex" "qu").2).countP isQueueBind = 0 := by
  decide

/-- C1 amended: the constructor never panics and either returns a fully
initialized client, with live connection and channel, the given names
stored, the connection dialed, the channel opened, the exchange and the
queue declared when their names are non-empty and no close performed, or
returns an error having closed exactly as many channels and connections
as it had opened: a channel-open failure closes the connection, and a
declare failure closes both channel and connection. -/
theorem new_client_total_or_teardown (env : Env) (url ex q : String) :
    (NewRabbitMQClient env url ex q).1 ≠ .panicNilDeref ∧
    (∀ client, (NewRabbitMQClient env url ex q).1 = .ok (.ok client) →
      client.Connection = some () ∧ client.Channel = some () ∧
      client.Exchange = ex ∧ client.Queue = q ∧
      Effect.dial url ∈ (NewRabbitMQClient env url ex q).2 ∧
      Effect.openChannel ∈ (NewRabbitMQClient env url ex q).2 ∧
      (ex ≠ "" → Effect.exchangeDeclare ex "direct" true false false false
          ∈ (NewRabbitMQClient env url ex q).2) ∧
      (q ≠ "" → Effect.queueDeclare q true false false false
          ∈ (NewRabbitMQClient env url ex q).2) ∧
      ((NewRabbitMQClient env url ex q).2).countP isCloseChannel = 0 ∧
      ((NewRabbitMQClient env url ex q).2).countP isCloseConnection = 0) ∧
    (∀ e, (NewRabbitMQClient env url ex q).1 = .ok (.error e) →
      ((NewRabbitMQClient env url ex q).2).countP isOpenChannel =
        ((NewRabbitMQClient env url ex q).2).countP isCloseChannel ∧
      ((NewRabbitMQClient env url ex q).2).countP isDial =
        ((NewRabbitMQClient env url ex q).2).countP isCloseConnection) := by
  rcases hd : env.dialErr url with _ | e0 <;>
    rcases hc : env.channelErr with _ | e1 <;>
    rcases he : env.exchangeDeclareErr with _ | e2 <;>
    rcases hqe : env.queueDeclareErr with _ | e3 <;>
    by_cases hex : ex = "" <;>
    by_cases hq : q = "" <;>
    refine ⟨?_, ?_, ?_⟩ <;>
    simp_all [NewRabbitMQClient, amqpDial, connChannel, connClose,
      createExchange, createQueue, chanExchangeDeclare, chanQueueDeclare,
      closeChanelConnection, chanClose,
      List.countP_append, List.countP_cons, List.countP_nil,
      isDial, isOpenChannel, isCloseChannel, isCloseConnection]

/-- The client value the constructor builds in the all-success
environment with exchange name ex and queue name qu. -/
def builtClient : RabbitMQClient where
  Connection := some ()
  Channel := some ()
  Exchange := "ex"
  Queue := "qu"
  Serializer := exampleSerializer

/-- Witness for the amended C1: the all-success run returns exactly the
built client, with a dialed connection, an opened channel and no close in
its trace. -/
theorem new_client_total_or_teardown_witness :
    builtClient.Connection = some () ∧
    Effect.dial "amqp://h" ∈ (NewRabbitMQClient okEnv "amqp://h" "ex" "qu").2 ∧
    Effect.openChannel ∈ (NewRabbitMQClient okEnv "amqp://h" "ex" "qu").2 ∧
    ((NewRabbitMQClient okEnv "amqp://h" "ex" "qu").2).countP isCloseChannel = 0 ∧
    ((NewRabbitMQClient okEnv "amqp://h" "ex" "qu").2).countP isCloseConnection = 0 := by
  have h := (new_client_total_or_teardown okEnv "amqp://h" "ex" "qu").2.1 builtClient rfl
  exact ⟨h.1, h.2.2.2.2.1, h.2.2.2.2.2.1, h.2.2.2.2.2.2.2.2.1, h.2.2.2.2.2.2.2.2.2⟩

end Servicebus
